import Mathlib

/-!
Verification of the sample calculator script (src/reproduction/sample.py).

The script defines a class Calculator with three methods:

  class Calculator:
      def unused_method(self):
          return "never called"
      def add(self, a, b):
          return a + b
      def multiply(self, a, b):
          return a * b

and a module body that constructs one instance and makes five calls:

  calc = Calculator()
  result1 = calc.add(1, 2)
  result2 = calc.add(3, 4)
  result3 = calc.multiply(2, 3)
  result4 = calc.multiply(4, 5)
  result5 = calc.multiply(6, 7)

The shallow embedding below models Python dynamic values (the two types the
program and the claims mention: arbitrary-precision integers and strings),
the dynamic dispatch of the Python + and * operators on those values (a
TypeError is modelled as an Except.error), the Calculator class (a structure
with no fields, since the class declares no attributes and no method assigns
to self), and the module body (both as five named result bindings and as a
trace of call events that a reference counter can inspect).
-/

/-- A Python runtime value of the types occurring in the program: an
arbitrary-precision integer or a string. -/
inductive PyVal where
  | int (n : Int)
  | str (s : String)
deriving DecidableEq, Repr

/-- Python string repetition: s * n with n copies of s (negative counts are
clamped to zero before this is reached). -/
def strRepeat (s : String) : Nat → String
  | 0 => ""
  | n + 1 => s ++ strRepeat s n

/-- The Python binary + operator on the modelled value types: integer
addition on two ints, concatenation on two strings, TypeError otherwise. -/
def pyAdd : PyVal → PyVal → Except String PyVal
  | .int a, .int b => .ok (.int (a + b))
  | .str a, .str b => .ok (.str (a ++ b))
  | _, _ => .error "TypeError: unsupported operand types for +"

/-- The Python binary * operator on the modelled value types: integer
multiplication on two ints, string repetition on a string and an int (in
either order, negative counts yielding the empty string), TypeError on two
strings. -/
def pyMul : PyVal → PyVal → Except String PyVal
  | .int a, .int b => .ok (.int (a * b))
  | .int n, .str s => .ok (.str (strRepeat s n.toNat))
  | .str s, .int n => .ok (.str (strRepeat s n.toNat))
  | .str _, .str _ => .error "TypeError: unsupported operand types for *"

/-- The Calculator class. It declares no attributes and no method assigns to
self, so the instance state is a structure with no fields. -/
structure Calculator

/-- Calculator.unused_method: returns the literal string, ignoring self. -/
def Calculator.unused_method (_ : Calculator) : String := "never called"

/-- Calculator.add: returns a + b under Python dynamic dispatch, ignoring
self. -/
def Calculator.add (_ : Calculator) (a b : PyVal) : Except String PyVal :=
  pyAdd a b

/-- Calculator.multiply: returns a * b under Python dynamic dispatch,
ignoring self. -/
def Calculator.multiply (_ : Calculator) (a b : PyVal) : Except String PyVal :=
  pyMul a b

/-- The single instance constructed by the module body (named calc in the
source; calc is a reserved word in Lean). -/
def calcObj : Calculator := Calculator.mk

/-- result1 = calc.add(1, 2) -/
def result1 : Except String PyVal := calcObj.add (.int 1) (.int 2)

/-- result2 = calc.add(3, 4) -/
def result2 : Except String PyVal := calcObj.add (.int 3) (.int 4)

/-- result3 = calc.multiply(2, 3) -/
def result3 : Except String PyVal := calcObj.multiply (.int 2) (.int 3)

/-- result4 = calc.multiply(4, 5) -/
def result4 : Except String PyVal := calcObj.multiply (.int 4) (.int 5)

/-- result5 = calc.multiply(6, 7) -/
def result5 : Except String PyVal := calcObj.multiply (.int 6) (.int 7)

/-- A call event against the Calculator instance: which method is invoked
and with which arguments. -/
inductive Call where
  | toAdd (a b : PyVal)
  | toMultiply (a b : PyVal)
  | toUnused
deriving DecidableEq, Repr

/-- The five calls made by the module body, in program order. -/
def moduleBodyCalls : List Call :=
  [ .toAdd (.int 1) (.int 2)
  , .toAdd (.int 3) (.int 4)
  , .toMultiply (.int 2) (.int 3)
  , .toMultiply (.int 4) (.int 5)
  , .toMultiply (.int 6) (.int 7) ]

/-- Whether a call event invokes add. -/
def isAddCall : Call → Bool
  | .toAdd _ _ => true
  | _ => false

/-- Whether a call event invokes multiply. -/
def isMultiplyCall : Call → Bool
  | .toMultiply _ _ => true
  | _ => false

/-- Whether a call event invokes unused_method. -/
def isUnusedCall : Call → Bool
  | .toUnused => true
  | _ => false

/-- Reference count of a method in a trace: the number of call events in the
trace that invoke it. -/
def refCount (p : Call → Bool) (calls : List Call) : Nat :=
  (calls.filter p).length

/-- Execute one call against an instance, with explicit state passing: the
result of the call together with the instance state afterwards. No method
body assigns to self, so the state is returned unchanged. -/
def execCall (c : Calculator) : Call → Except String PyVal × Calculator
  | .toAdd a b => (c.add a b, c)
  | .toMultiply a b => (c.multiply a b, c)
  | .toUnused => (.ok (.str c.unused_method), c)

/-- Execute a list of calls in sequence against an instance, threading the
instance state, and collect the results in order. -/
def runCalls (c : Calculator) : List Call → List (Except String PyVal) × Calculator
  | [] => ([], c)
  | k :: rest =>
    let step := execCall c k
    let tail := runCalls step.2 rest
    (step.1 :: tail.1, tail.2)

/-- Claim C1: for every pair of integer values a and b, Calculator.add
returns the arithmetic sum a + b. -/
theorem C1_add_returns_sum (c : Calculator) (a b : Int) :
    c.add (.int a) (.int b) = .ok (.int (a + b)) := rfl

/-- Claim C2: for every pair of integer values a and b, Calculator.multiply
returns the arithmetic product a * b. -/
theorem C2_multiply_returns_product (c : Calculator) (a b : Int) :
    c.multiply (.int a) (.int b) = .ok (.int (a * b)) := rfl

/-- Claim C3: across the module body, add is invoked exactly 2 times,
multiply exactly 3 times, and unused_method exactly 0 times. -/
theorem C3_reference_counts :
    refCount isAddCall moduleBodyCalls = 2 ∧
    refCount isMultiplyCall moduleBodyCalls = 3 ∧
    refCount isUnusedCall moduleBodyCalls = 0 := by
  refine ⟨rfl, rfl, rfl⟩

/-- Claim C4: unused_method always returns the literal string "never called"
on every instance, and (by the explicit state-passing semantics) a call to
it leaves the instance state unchanged, so it has no side effects. -/
theorem C4_unused_method_constant :
    (∀ c : Calculator, c.unused_method = "never called") ∧
    (∀ c : Calculator, execCall c .toUnused = (.ok (.str "never called"), c)) :=
  ⟨fun _ => rfl, fun _ => rfl⟩

/-- Claim C5: running the module body binds the five result slots to the
values 3, 7, 6, 20 and 42 respectively, and the sequential execution of the
five calls produces exactly these results in order. -/
theorem C5_end_to_end_results :
    result1 = .ok (.int 3) ∧
    result2 = .ok (.int 7) ∧
    result3 = .ok (.int 6) ∧
    result4 = .ok (.int 20) ∧
    result5 = .ok (.int 42) ∧
    (runCalls calcObj moduleBodyCalls).1 =
      [.ok (.int 3), .ok (.int 7), .ok (.int 6), .ok (.int 20), .ok (.int 42)] := by
  refine ⟨rfl, rfl, rfl, rfl, rfl, rfl⟩

/-- Claim C6: for all integer a and b, add is commutative and multiply is
commutative. -/
theorem C6_commutativity (c : Calculator) (a b : Int) :
    c.add (.int a) (.int b) = c.add (.int b) (.int a) ∧
    c.multiply (.int a) (.int b) = c.multiply (.int b) (.int a) := by
  constructor
  · show pyAdd (.int a) (.int b) = pyAdd (.int b) (.int a)
    simp [pyAdd, Int.add_comm]
  · show pyMul (.int a) (.int b) = pyMul (.int b) (.int a)
    simp [pyMul, Int.mul_comm]

/-- Claim C7: add and multiply are deterministic: the result of a call
depends only on the arguments, and in particular is the same after any
sequence of prior calls on the instance as it is on the fresh instance. -/
theorem C7_deterministic (prior : List Call) (a b : PyVal) :
    (execCall (runCalls calcObj prior).2 (.toAdd a b)).1 =
      (execCall calcObj (.toAdd a b)).1 ∧
    (execCall (runCalls calcObj prior).2 (.toMultiply a b)).1 =
      (execCall calcObj (.toMultiply a b)).1 :=
  ⟨rfl, rfl⟩

/-- Claim C8: for every pair of integer inputs, add and multiply return a
normal value and never reach the TypeError branch; in particular every call
the module body actually makes succeeds. -/
theorem C8_total_on_numeric (c : Calculator) (a b : Int) :
    (∃ v, c.add (.int a) (.int b) = .ok v) ∧
    (∃ v, c.multiply (.int a) (.int b) = .ok v) ∧
    ∀ r ∈ (runCalls calcObj moduleBodyCalls).1, ∃ v, r = .ok v := by
  refine ⟨⟨.int (a + b), rfl⟩, ⟨.int (a * b), rfl⟩, ?_⟩
  intro r hr
  simp only [runCalls, execCall, moduleBodyCalls] at hr
  fin_cases hr <;> exact ⟨_, rfl⟩

/-- Claim C9: the Calculator object is stateless: it has a single possible
state (no attributes), no call mutates the instance state, and the result of
every call depends only on the call (method and arguments), not on the
instance. -/
theorem C9_stateless :
    (∀ c d : Calculator, c = d) ∧
    (∀ (c : Calculator) (k : Call), (execCall c k).2 = c) ∧
    (∀ (c d : Calculator) (k : Call), (execCall c k).1 = (execCall d k).1) := by
  refine ⟨fun c d => by cases c; cases d; rfl, fun c k => by cases k <;> rfl, ?_⟩
  intro c d k
  cases k <;> rfl

/-- Claim C10: add and multiply accept any modelled value types supporting
the Python + and * operators, not only numbers: add on two strings is
concatenation, for which commutativity fails; outside the numeric domain the
operations are not total and raise a TypeError (add on an int and a string,
multiply on two strings), while multiply on a string and an int is string
repetition. -/
theorem C10_dynamic_typing :
    calcObj.add (.str "a") (.str "b") = .ok (.str "ab") ∧
    calcObj.add (.str "a") (.str "b") ≠ calcObj.add (.str "b") (.str "a") ∧
    calcObj.add (.int 1) (.str "a") = .error "TypeError: unsupported operand types for +" ∧
    calcObj.multiply (.str "ab") (.int 3) = .ok (.str "ababab") ∧
    calcObj.multiply (.str "a") (.str "b") = .error "TypeError: unsupported operand types for *" := by
  refine ⟨rfl, ?_, rfl, rfl, rfl⟩
  intro h
  simp [Calculator.add, pyAdd] at h
